import Mathlib

/-!
Verification of the approval-gated artifact pipeline (Airflow DAG
`swe_artifact_pipeline` plus its Supabase hook and operator plugins).

The durable store (Supabase tables `artifacts`, `approvals`,
`pipelineStages`) is modelled as an explicit `Store` value; each hook
method of `plugins/hooks/supabase_hook.py` becomes a pure function on
`Store`, and each operator's `execute` becomes a function from `Store`
to a result together with the updated `Store` (`Except` models a raised
Python exception).  Statuses and artifact types are the string literals
the Python source uses.
-/

/-- A row of the `artifacts` table (see the Drizzle queries embedded in
`supabase_hook.py` and the artifact dicts built by the operators). -/
structure Artifact where
  id : Nat
  name : String
  type : String
  content : String
  createdBy : String
  parentId : Option Nat
  status : String
deriving DecidableEq

/-- A row of the `approvals` table.  Every `create_approval` call site in
the repository passes `artifactId`, `stakeholderId` and `status` only, so
`comment` starts out absent. -/
structure Approval where
  id : Nat
  artifactId : Nat
  stakeholderId : Nat
  status : String
  comment : Option String
deriving DecidableEq

/-- A row of the `pipelineStages` table: the fields the operators read
(`orderIndex`, `artifactType`, `requiredApprovals`). -/
structure PipelineStage where
  orderIndex : Nat
  artifactType : String
  requiredApprovals : Nat
deriving DecidableEq

/-- The Supabase database state.  `nextArtifactId` / `nextApprovalId`
model the serial primary keys assigned on insert. -/
structure Store where
  artifacts : List Artifact
  approvals : List Approval
  stages : List PipelineStage
  nextArtifactId : Nat
  nextApprovalId : Nat
deriving DecidableEq

/-- Insert payload for `create_artifact` (the artifact dicts built in the
operators; the root PRD dict has no `parentId` key, hence the option). -/
structure ArtifactData where
  name : String
  type : String
  content : String
  createdBy : String
  parentId : Option Nat
  status : String
deriving DecidableEq

/-- Insert payload for `create_approval`. -/
structure ApprovalData where
  artifactId : Nat
  stakeholderId : Nat
  status : String
deriving DecidableEq

/-- Partial-update payload for `update_approval`: the hook applies
whatever keys are present in the dict; `ManualApprovalOperator` always
sends `status` and sends `comment` only when truthy. -/
structure ApprovalUpdate where
  status : Option String
  comment : Option String
deriving DecidableEq

/-- `SupabaseHook.get_artifact`: `select ... where eq(artifacts.id, id)`,
first row or null. -/
def get_artifact (st : Store) (artifact_id : Nat) : Option Artifact :=
  st.artifacts.find? (fun a => a.id == artifact_id)

/-- `SupabaseHook.create_artifact`: insert returning the created row. -/
def create_artifact (st : Store) (d : ArtifactData) : Artifact × Store :=
  let a : Artifact :=
    ⟨st.nextArtifactId, d.name, d.type, d.content, d.createdBy, d.parentId, d.status⟩
  (a, { st with artifacts := st.artifacts ++ [a], nextArtifactId := st.nextArtifactId + 1 })

/-- `SupabaseHook.update_artifact`: unconditional update of the rows with
the given id.  Every call site in the repository updates only the
`status` field, so the payload is modelled as the new status string. -/
def update_artifact (st : Store) (artifact_id : Nat) (status : String) : Store :=
  let f := fun a : Artifact => if a.id = artifact_id then { a with status := status } else a
  { st with artifacts := st.artifacts.map f }

/-- `SupabaseHook.create_approval`: insert returning the created row. -/
def create_approval (st : Store) (d : ApprovalData) : Approval × Store :=
  let a : Approval := ⟨st.nextApprovalId, d.artifactId, d.stakeholderId, d.status, none⟩
  (a, { st with approvals := st.approvals ++ [a], nextApprovalId := st.nextApprovalId + 1 })

/-- Apply an `update_approval` payload to one row (present keys
overwrite, absent keys keep the stored value). -/
def applyApprovalUpdate (a : Approval) (u : ApprovalUpdate) : Approval :=
  { a with
    status := u.status.getD a.status
    comment := match u.comment with
      | some c => some c
      | none => a.comment }

/-- `SupabaseHook.update_approval`: `update ... where eq(approvals.id, id)`.
The update is unconditional — the SQL has no guard on the row's current
status. -/
def update_approval (st : Store) (approval_id : Nat) (u : ApprovalUpdate) : Store :=
  let f := fun a : Approval => if a.id = approval_id then applyApprovalUpdate a u else a
  { st with approvals := st.approvals.map f }

/-- `SupabaseHook.get_approvals_for_artifact`: all rows with the given
`artifactId`. -/
def get_approvals_for_artifact (st : Store) (artifact_id : Nat) : List Approval :=
  st.approvals.filter (fun a => a.artifactId == artifact_id)

/-- `SupabaseHook.get_pipeline_stage_by_order`: first row with the given
`orderIndex`, or null. -/
def get_pipeline_stage_by_order (st : Store) (order_index : Nat) : Option PipelineStage :=
  st.stages.find? (fun s => s.orderIndex == order_index)

/-- The stage-resolution scan both approval checks perform:
`for i in range(6)` fetch the stage of order `i` and stop at the first
whose `artifactType` matches (`approval_operator.py` lines 59-63,
`swe_artifact_pipeline.py` lines 101-105). -/
def findStageForType (st : Store) (artifactType : String) : Option PipelineStage :=
  (List.range 6).findSome? (fun i =>
    match get_pipeline_stage_by_order st i with
    | some s => if s.artifactType == artifactType then some s else none
    | none => none)

/-- The quorum test both checks compute: `sum(1 for a in approvals if
a.status == APPROVED) >= required` over the artifact's approval rows. -/
def quorum (st : Store) (artifact_id required : Nat) : Bool :=
  decide ((get_approvals_for_artifact st artifact_id).countP
    (fun a => a.status == "APPROVED") ≥ required)

/-- `ApprovalOperator.execute`: raises (`Except.error`) when the artifact
or its stage is missing; otherwise counts APPROVED rows, and when the
count meets `requiredApprovals` writes status APPROVED on the artifact
and returns true, else returns false. -/
def ApprovalOperator.execute (st : Store) (artifact_id : Nat) :
    Except String (Bool × Store) :=
  match get_artifact st artifact_id with
  | none => Except.error "Artifact not found"
  | some artifact =>
    match findStageForType st artifact.type with
    | none => Except.error "No pipeline stage found for artifact type"
    | some stage =>
      let approvals := get_approvals_for_artifact st artifact_id
      let approved_count := approvals.countP (fun a => a.status == "APPROVED")
      let required_approvals := stage.requiredApprovals
      if approved_count ≥ required_approvals then
        Except.ok (true, update_artifact st artifact_id "APPROVED")
      else
        Except.ok (false, st)

/-- `check_artifact_approvals` of the DAG file: `none` models the
`TypeError` Python raises subscripting a missing artifact; when no stage
matches the artifact's type the source returns True ("consider approvals
complete"). -/
def check_artifact_approvals (st : Store) (artifact_id : Nat) : Option Bool :=
  match get_artifact st artifact_id with
  | none => none
  | some artifact =>
    match findStageForType st artifact.type with
    | none => some true
    | some stage =>
      let approvals := get_approvals_for_artifact st artifact_id
      let approved_count := approvals.countP (fun a => a.status == "APPROVED")
      some (decide (approved_count ≥ stage.requiredApprovals))

/-- Python truthiness of the optional `comment` argument (`if
self.comment:`): absent and empty strings are falsy. -/
def pyTruthy : Option String → Bool
  | none => false
  | some s => !(s == "")

/-- `ManualApprovalOperator.execute`: takes the first approval row of the
stakeholder for the artifact, overwrites its status with the decision
(comment only when truthy), and on a rejection additionally writes status
REJECTED on the artifact itself. -/
def ManualApprovalOperator.execute (st : Store) (artifact_id stakeholder_id : Nat)
    (approve : Bool) (comment : Option String) : Store :=
  let approvals := get_approvals_for_artifact st artifact_id
  let stakeholder_approvals := approvals.filter (fun a => a.stakeholderId == stakeholder_id)
  match stakeholder_approvals with
  | [] => st
  | approval :: _ =>
    let status := if approve then "APPROVED" else "REJECTED"
    let update_data : ApprovalUpdate :=
      ⟨some status, if pyTruthy comment then comment else none⟩
    let st1 := update_approval st approval.id update_data
    if approve then st1 else update_artifact st1 artifact_id "REJECTED"

/-- `PRDProcessorOperator.execute`.  The external `prd_processor` Node
script is the opaque `transform` on the artifact's content.  The source
also fetches the stage of order 1 here and never uses it.  Creates one
DDD_MODEL child and seeds one PENDING approval for stakeholder 1. -/
def PRDProcessorOperator.execute (transform : String → String) (st : Store)
    (artifact_id : Nat) (task_id : String) : Except String (Nat × Store) :=
  match get_artifact st artifact_id with
  | none => Except.error "Artifact not found"
  | some prd =>
    if prd.type ≠ "PRD" then Except.error "Artifact is not a PRD"
    else
      let result := transform prd.content
      let step := create_artifact st
        ⟨"DDD Model for " ++ prd.name, "DDD_MODEL", result, task_id,
          some prd.id, "PENDING_APPROVAL"⟩
      let created := step.1
      let st1 := step.2
      let st2 := (create_approval st1 ⟨created.id, 1, "PENDING"⟩).2
      Except.ok (created.id, st2)

/-- `SchemaGeneratorOperator.execute`.  One call to the external
`schema_generator` produces both payloads (the `zod_schema` and
`db_schema` keys of its result).  Creates the two sibling artifacts with
`parentId` the TypeSpec artifact's id, then seeds PENDING approvals:
stakeholders 2 and 4 on the Zod schema, 3 and 5 on the DB schema.  The
stage fetches of orders 4 and 5 in the source are unused. -/
def SchemaGeneratorOperator.execute (transform : String → String × String)
    (st : Store) (artifact_id : Nat) (task_id : String) :
    Except String ((Nat × Nat) × Store) :=
  match get_artifact st artifact_id with
  | none => Except.error "Artifact not found"
  | some ts =>
    if ts.type ≠ "TYPESPEC" then Except.error "Artifact is not a TypeSpec"
    else
      let result := transform ts.content
      let zodStep := create_artifact st
        ⟨"Zod Schema for " ++ ts.name, "ZOD_SCHEMA", result.1, task_id,
          some ts.id, "PENDING_APPROVAL"⟩
      let created_zod := zodStep.1
      let st1 := zodStep.2
      let dbStep := create_artifact st1
        ⟨"Database Schema for " ++ ts.name, "DB_SCHEMA", result.2, task_id,
          some ts.id, "PENDING_APPROVAL"⟩
      let created_db := dbStep.1
      let st2 := dbStep.2
      let st3 := (create_approval st2 ⟨created_zod.id, 2, "PENDING"⟩).2
      let st4 := (create_approval st3 ⟨created_zod.id, 4, "PENDING"⟩).2
      let st5 := (create_approval st4 ⟨created_db.id, 3, "PENDING"⟩).2
      let st6 := (create_approval st5 ⟨created_db.id, 5, "PENDING"⟩).2
      Except.ok ((created_zod.id, created_db.id), st6)

/-- The approval-seeding block of `PRDProcessorOperator.execute`
(prd_processor.py lines 87-96): one unconditional `create_approval` with
stakeholder 1 and status PENDING for the given artifact. -/
def seedPrdApprovals (st : Store) (artifact_id : Nat) : Store :=
  (create_approval st ⟨artifact_id, 1, "PENDING"⟩).2

/-- The approval-seeding block of `SchemaGeneratorOperator.execute`
(schema_generator.py lines 102-132): four unconditional
`create_approval` calls. -/
def seedSchemaApprovals (st : Store) (zod_id db_id : Nat) : Store :=
  let st1 := (create_approval st ⟨zod_id, 2, "PENDING"⟩).2
  let st2 := (create_approval st1 ⟨zod_id, 4, "PENDING"⟩).2
  let st3 := (create_approval st2 ⟨db_id, 3, "PENDING"⟩).2
  (create_approval st3 ⟨db_id, 5, "PENDING"⟩).2

/-- `finalize_pipeline` of the DAG: reads both schema artifacts (`none`
models the `TypeError` on a missing row) and returns the completion
record `(zod_schema_id, db_schema_id, completed)`. -/
def finalize_pipeline (st : Store) (zod_schema_id db_schema_id : Nat) :
    Option (Nat × Nat × String) :=
  match get_artifact st zod_schema_id, get_artifact st db_schema_id with
  | some _, some _ => some (zod_schema_id, db_schema_id, "completed")
  | _, _ => none

/-- The tail of the DAG after `generate_schemas`: the two
`ApprovalOperator` check tasks run, and the finalize task's trigger rule
`ALL_SUCCESS` makes it run exactly when both check tasks finished in
state success — i.e. their `execute` raised no exception.  The boolean an
`ApprovalOperator` returns is only an XCom value and does not affect the
task's state.  Returns the final store and the completion record when
finalize ran (`none`: finalize did not run). -/
def schemaChecksThenFinalize (st : Store) (zod_schema_id db_schema_id : Nat) :
    Store × Option (Nat × Nat × String) :=
  match ApprovalOperator.execute st zod_schema_id with
  | Except.error _ => (st, none)
  | Except.ok r1 =>
    match ApprovalOperator.execute r1.2 db_schema_id with
    | Except.error _ => (r1.2, none)
    | Except.ok r2 => (r2.2, finalize_pipeline r2.2 zod_schema_id db_schema_id)

/-! ### Helper lemmas about the store operations -/

theorem get_artifact_id_eq (st : Store) (aid : Nat) (a : Artifact)
    (h : get_artifact st aid = some a) : a.id = aid := by
  unfold get_artifact at h
  simpa using List.find?_some h

theorem update_approval_artifacts_eq (st : Store) (i : Nat) (u : ApprovalUpdate) :
    (update_approval st i u).artifacts = st.artifacts := rfl

theorem update_artifact_approvals_eq (st : Store) (i : Nat) (s : String) :
    (update_artifact st i s).approvals = st.approvals := rfl

theorem get_artifact_update_artifact (st : Store) (i j : Nat) (s : String) :
    get_artifact (update_artifact st i s) j =
      (get_artifact st j).map
        (fun a => if a.id = i then { a with status := s } else a) := by
  unfold get_artifact update_artifact
  rw [List.find?_map]
  have : ((fun a : Artifact => a.id == j) ∘
      fun a : Artifact => if a.id = i then { a with status := s } else a) =
      fun a : Artifact => a.id == j := by
    funext a
    by_cases h : a.id = i <;> simp [h]
  rw [this]

/-! ### Concrete stores used by witnesses and counterexamples -/

/-- One PRD artifact (id 1), its stage requiring one approval, one
PENDING approval row for stakeholder 1 (the state right after the
`create_prd` task). -/
def prdPendingStore : Store :=
  { artifacts := [⟨1, "Checkout Flow", "PRD", "prd content", "airflow", none, "PENDING_APPROVAL"⟩],
    approvals := [⟨1, 1, 1, "PENDING", none⟩],
    stages := [⟨0, "PRD", 1⟩],
    nextArtifactId := 2,
    nextApprovalId := 2 }

/-- As `prdPendingStore`, but stakeholder 1 has already APPROVED. -/
def prdApprovedStore : Store :=
  { artifacts := [⟨1, "Checkout Flow", "PRD", "prd content", "airflow", none, "PENDING_APPROVAL"⟩],
    approvals := [⟨1, 1, 1, "APPROVED", none⟩],
    stages := [⟨0, "PRD", 1⟩],
    nextArtifactId := 2,
    nextApprovalId := 2 }

/-- An artifact whose type matches no configured stage. -/
def unknownTypeStore : Store :=
  { artifacts := [⟨1, "Mystery", "UNKNOWN_TYPE", "c", "airflow", none, "PENDING_APPROVAL"⟩],
    approvals := [],
    stages := [⟨0, "PRD", 1⟩],
    nextArtifactId := 2,
    nextApprovalId := 1 }

/-- Quorum already holds (stakeholder 1 APPROVED, one required) and a
second approval row is still PENDING. -/
def mixedStore : Store :=
  { artifacts := [⟨1, "Checkout Flow", "PRD", "prd content", "airflow", none, "PENDING_APPROVAL"⟩],
    approvals := [⟨1, 1, 1, "APPROVED", none⟩, ⟨2, 1, 2, "PENDING", none⟩],
    stages := [⟨0, "PRD", 1⟩],
    nextArtifactId := 2,
    nextApprovalId := 3 }

/-- A TYPESPEC artifact awaiting the schema-generation branch. -/
def typespecStore : Store :=
  { artifacts := [⟨7, "TS", "TYPESPEC", "tsc", "generate_typespec", some 5, "APPROVED"⟩],
    approvals := [],
    stages := [⟨3, "TYPESPEC", 1⟩, ⟨4, "ZOD_SCHEMA", 2⟩, ⟨5, "DB_SCHEMA", 2⟩],
    nextArtifactId := 10,
    nextApprovalId := 1 }

/-- The two sibling schema artifacts of parent 7: the Zod sibling (id 10)
has zero of its two required approvals, the DB sibling (id 11) has both. -/
def branchStore : Store :=
  { artifacts :=
      [⟨10, "Zod Schema for TS", "ZOD_SCHEMA", "zc", "generate_schemas", some 7, "PENDING_APPROVAL"⟩,
       ⟨11, "Database Schema for TS", "DB_SCHEMA", "dc", "generate_schemas", some 7, "PENDING_APPROVAL"⟩],
    approvals :=
      [⟨1, 10, 2, "PENDING", none⟩, ⟨2, 10, 4, "PENDING", none⟩,
       ⟨3, 11, 3, "APPROVED", none⟩, ⟨4, 11, 5, "APPROVED", none⟩],
    stages := [⟨4, "ZOD_SCHEMA", 2⟩, ⟨5, "DB_SCHEMA", 2⟩],
    nextArtifactId := 12,
    nextApprovalId := 5 }

/-- The empty database (serial keys start at 1). -/
def emptyStore : Store :=
  { artifacts := [], approvals := [], stages := [], nextArtifactId := 1, nextApprovalId := 1 }

/-! ### C1 -/

/-- C1: the approval check succeeds with `true` exactly when the number
of APPROVED approval rows of the artifact reaches the stage's
`requiredApprovals` (the `quorum` test); and adding a REJECTED approval
row never changes the quorum value on any artifact, so a rejection
neither reduces nor blocks the approved count and quorum can still
become true after it. -/
theorem approval_check_quorum_iff (st : Store) (aid : Nat) (artifact : Artifact)
    (stage : PipelineStage)
    (hget : get_artifact st aid = some artifact)
    (hstage : findStageForType st artifact.type = some stage) :
    ((∃ st', ApprovalOperator.execute st aid = Except.ok (true, st')) ↔
      quorum st aid stage.requiredApprovals = true) ∧
    (∀ d : ApprovalData, d.status = "REJECTED" → ∀ r : Nat,
      quorum (create_approval st d).2 aid r = quorum st aid r) := by
  constructor
  · unfold ApprovalOperator.execute quorum
    rw [hget]
    dsimp only
    rw [hstage]
    dsimp only
    by_cases hc : (get_approvals_for_artifact st aid).countP
        (fun a => a.status == "APPROVED") ≥ stage.requiredApprovals
    · simp [hc]
    · simp [hc]
  · intro d hd r
    unfold quorum get_approvals_for_artifact create_approval
    dsimp only
    rw [List.filter_append, List.countP_append]
    by_cases hart : d.artifactId == aid
    · simp [List.filter_cons, hart, List.countP_cons, hd]
    · simp [List.filter_cons, hart]

/-- Witness for C1 at `prdApprovedStore` (one APPROVED row, one
required). -/
theorem approval_check_quorum_iff_witness :
    (∃ st', ApprovalOperator.execute prdApprovedStore 1 = Except.ok (true, st')) ↔
      quorum prdApprovedStore 1 (PipelineStage.mk 0 "PRD" 1).requiredApprovals = true :=
  (approval_check_quorum_iff prdApprovedStore 1
    ⟨1, "Checkout Flow", "PRD", "prd content", "airflow", none, "PENDING_APPROVAL"⟩
    ⟨0, "PRD", 1⟩ rfl rfl).1

/-! ### C10 -/

/-- C10: when the artifact and its stage resolve, a below-quorum count
makes `ApprovalOperator.execute` return `false` with the store unchanged
(no error, no write: every artifact row and approval row as before), and
the APPROVED status write happens exactly when the approved count meets
the requirement. -/
theorem approval_check_frame (st : Store) (aid : Nat) (artifact : Artifact)
    (stage : PipelineStage)
    (hget : get_artifact st aid = some artifact)
    (hstage : findStageForType st artifact.type = some stage) :
    ((get_approvals_for_artifact st aid).countP (fun a => a.status == "APPROVED") <
        stage.requiredApprovals →
      ApprovalOperator.execute st aid = Except.ok (false, st)) ∧
    (stage.requiredApprovals ≤
        (get_approvals_for_artifact st aid).countP (fun a => a.status == "APPROVED") →
      ApprovalOperator.execute st aid =
        Except.ok (true, update_artifact st aid "APPROVED")) := by
  unfold ApprovalOperator.execute
  rw [hget]
  dsimp only
  rw [hstage]
  dsimp only
  constructor
  · intro h
    simp [Nat.not_le.mpr h]
  · intro h
    simp [h]

/-- Witness for C10 at `prdPendingStore` (zero APPROVED rows, one
required): the check returns `false` and the store is returned
untouched. -/
theorem approval_check_frame_witness :
    ApprovalOperator.execute prdPendingStore 1 = Except.ok (false, prdPendingStore) :=
  (approval_check_frame prdPendingStore 1
    ⟨1, "Checkout Flow", "PRD", "prd content", "airflow", none, "PENDING_APPROVAL"⟩
    ⟨0, "PRD", 1⟩ rfl rfl).1 (by decide)

theorem get_artifact_update_approval (st : Store) (i : Nat) (u : ApprovalUpdate)
    (j : Nat) : get_artifact (update_approval st i u) j = get_artifact st j := rfl

/-! ### C2 -/

/-- C2 counterexample: artifact 1 starts in PENDING_APPROVAL with a single
PENDING approval; recording a REJECTED decision for that one stakeholder
through `ManualApprovalOperator` moves the artifact's status to REJECTED —
no distinct reject-artifact action is involved. -/
theorem manual_reject_counterexample :
    (get_artifact prdPendingStore 1).map Artifact.status = some "PENDING_APPROVAL" ∧
    (get_artifact (ManualApprovalOperator.execute prdPendingStore 1 1 false none) 1).map
      Artifact.status = some "REJECTED" :=
  ⟨rfl, rfl⟩

/-- C2 amended: recording a REJECTED decision through the decision path
(`ManualApprovalOperator` with approve = False) itself sets the artifact's
status to REJECTED in the same call — the rejection of the artifact is not
a distinct action; an APPROVED decision leaves every artifact row
unchanged. -/
theorem manual_reject_sets_artifact_rejected (st : Store) (aid sid : Nat)
    (c : Option String) (a : Artifact)
    (hfl : (get_approvals_for_artifact st aid).filter
      (fun x => x.stakeholderId == sid) ≠ [])
    (hget : get_artifact st aid = some a) :
    (get_artifact (ManualApprovalOperator.execute st aid sid false c) aid).map
      Artifact.status = some "REJECTED" ∧
    (ManualApprovalOperator.execute st aid sid true c).artifacts = st.artifacts := by
  have hid : a.id = aid := get_artifact_id_eq st aid a hget
  cases hl : (get_approvals_for_artifact st aid).filter (fun x => x.stakeholderId == sid) with
  | nil => exact absurd hl hfl
  | cons ap tl =>
    constructor
    · simp only [ManualApprovalOperator.execute, hl, if_neg Bool.false_ne_true]
      rw [get_artifact_update_artifact, get_artifact_update_approval, hget]
      simp [hid]
    · simp only [ManualApprovalOperator.execute, hl, if_pos (Eq.refl true)]
      rfl

/-- Witness for the C2 amended theorem at `prdPendingStore`. -/
theorem manual_reject_sets_artifact_rejected_witness :
    (get_artifact (ManualApprovalOperator.execute prdPendingStore 1 1 false none) 1).map
      Artifact.status = some "REJECTED" ∧
    (ManualApprovalOperator.execute prdPendingStore 1 1 true none).artifacts =
      prdPendingStore.artifacts :=
  manual_reject_sets_artifact_rejected prdPendingStore 1 1 none
    ⟨1, "Checkout Flow", "PRD", "prd content", "airflow", none, "PENDING_APPROVAL"⟩
    (by decide) rfl

/-! ### C4 -/

/-- C4 counterexample: approval 1 is already decided (APPROVED); a second
decision (REJECTED) recorded through `update_approval` raises no conflict
and overwrites the stored decision. -/
theorem update_approval_overwrites_counterexample :
    prdApprovedStore.approvals.map Approval.status = ["APPROVED"] ∧
    (update_approval prdApprovedStore 1 ⟨some "REJECTED", none⟩).approvals.map
      Approval.status = ["REJECTED"] :=
  ⟨rfl, rfl⟩

/-- C4 amended: `update_approval` carries no PENDING guard: for any stored
approval row — in particular one already decided — an update payload with a
status simply overwrites the stored status; the updated row is in the
resulting store. -/
theorem update_approval_unconditional (st : Store) (i : Nat) (s : String)
    (c : Option String) (a : Approval) (hmem : a ∈ st.approvals) (hid : a.id = i)
    (hdecided : a.status ≠ "PENDING") :
    applyApprovalUpdate a ⟨some s, c⟩ ∈ (update_approval st i ⟨some s, c⟩).approvals ∧
    (applyApprovalUpdate a ⟨some s, c⟩).status = s := by
  constructor
  · unfold update_approval
    dsimp only
    rw [List.mem_map]
    exact ⟨a, hmem, by rw [if_pos hid]⟩
  · rfl

/-- Witness for the C4 amended theorem: overwriting the already-APPROVED
row of `prdApprovedStore` with REJECTED. -/
theorem update_approval_unconditional_witness :
    applyApprovalUpdate ⟨1, 1, 1, "APPROVED", none⟩ ⟨some "REJECTED", none⟩ ∈
      (update_approval prdApprovedStore 1 ⟨some "REJECTED", none⟩).approvals ∧
    (applyApprovalUpdate ⟨1, 1, 1, "APPROVED", none⟩ ⟨some "REJECTED", none⟩).status =
      "REJECTED" :=
  update_approval_unconditional prdApprovedStore 1 "REJECTED" none
    ⟨1, 1, 1, "APPROVED", none⟩ (by decide) rfl (by decide)

/-! ### C5 -/

/-- C5 counterexample: seeding the PRD-processor approvals twice for the
same artifact id creates two approval rows for the pair (artifact 1,
stakeholder 1) — re-invocation is not a no-op and the at-most-one-record
invariant fails. -/
theorem seeding_not_idempotent_counterexample :
    ((seedPrdApprovals (seedPrdApprovals emptyStore 1) 1).approvals.countP
      (fun a => a.artifactId == 1 && a.stakeholderId == 1)) = 2 := rfl

/-- C5 amended: seeding is unconditional, not idempotent: each invocation
appends a fresh PENDING row per configured stakeholder with no check for
an existing record, so every re-invocation for the same artifact adds one
more record for the same (artifactId, stakeholderId) pair (shown for
stakeholder 1 of the PRD seeding and stakeholder 2 of the Zod-schema
seeding). -/
theorem seeding_appends_unconditionally (st : Store) (aid z d : Nat) :
    ((seedPrdApprovals st aid).approvals.countP
        (fun a => a.artifactId == aid && a.stakeholderId == 1) =
      st.approvals.countP (fun a => a.artifactId == aid && a.stakeholderId == 1) + 1) ∧
    ((seedSchemaApprovals st z d).approvals.countP
        (fun a => a.artifactId == z && a.stakeholderId == 2) =
      st.approvals.countP (fun a => a.artifactId == z && a.stakeholderId == 2) + 1) ∧
    (seedSchemaApprovals st z d).approvals.length = st.approvals.length + 4 := by
  refine ⟨?_, ?_, ?_⟩
  · unfold seedPrdApprovals create_approval
    simp [List.countP_append]
  · unfold seedSchemaApprovals create_approval
    by_cases hzd : d = z <;> by_cases h23 : (3 : Nat) = 2 <;>
      simp [List.countP_append, List.countP_cons, hzd]
  · unfold seedSchemaApprovals create_approval
    simp

/-- The store an operator run leaves behind: the updated store on
success, the unchanged input store when the run raised. -/
def exceptStore (r : Except String (Nat × Store)) (dflt : Store) : Store :=
  match r with
  | Except.ok p => p.2
  | Except.error _ => dflt

/-! ### C6 -/

/-- C6 amended: the engine performs no existing-child check: whenever the
source artifact is a PRD, `PRDProcessorOperator.execute` succeeds and
unconditionally creates one more DDD_MODEL child with that `parentId`, so
re-invoking the transform yields a second child of the target type for
the same parent. -/
theorem prd_dispatch_creates_child (tf : String → String) (st : Store) (aid : Nat)
    (tid : String) (prd : Artifact) (hget : get_artifact st aid = some prd)
    (hty : prd.type = "PRD") :
    (PRDProcessorOperator.execute tf st aid tid).isOk = true ∧
    (exceptStore (PRDProcessorOperator.execute tf st aid tid) st).artifacts.countP
        (fun a => a.parentId == some aid && a.type == "DDD_MODEL") =
      st.artifacts.countP (fun a => a.parentId == some aid && a.type == "DDD_MODEL") + 1 := by
  have hid : prd.id = aid := get_artifact_id_eq st aid prd hget
  unfold PRDProcessorOperator.execute
  rw [hget]
  dsimp only
  rw [if_neg (fun h => h hty)]
  constructor
  · rfl
  · unfold exceptStore create_artifact create_approval
    dsimp only
    rw [List.countP_append]
    simp [hid, List.countP_cons]

/-- Witness for the C6 amended theorem at `prdPendingStore`. -/
theorem prd_dispatch_creates_child_witness :
    (PRDProcessorOperator.execute (fun c => c) prdPendingStore 1 "process_prd").isOk = true ∧
    (exceptStore (PRDProcessorOperator.execute (fun c => c) prdPendingStore 1 "process_prd")
        prdPendingStore).artifacts.countP
        (fun a => a.parentId == some 1 && a.type == "DDD_MODEL") =
      prdPendingStore.artifacts.countP
        (fun a => a.parentId == some 1 && a.type == "DDD_MODEL") + 1 :=
  prd_dispatch_creates_child (fun c => c) prdPendingStore 1 "process_prd"
    ⟨1, "Checkout Flow", "PRD", "prd content", "airflow", none, "PENDING_APPROVAL"⟩ rfl rfl

/-- The store after dispatching the PRD transform once on
`prdPendingStore`. -/
def c6FirstStore : Store :=
  exceptStore (PRDProcessorOperator.execute (fun c => c) prdPendingStore 1 "process_prd")
    prdPendingStore

/-- The store after dispatching the same transform a second time for the
same parent artifact id. -/
def c6SecondStore : Store :=
  exceptStore (PRDProcessorOperator.execute (fun c => c) c6FirstStore 1 "process_prd")
    c6FirstStore

/-- C6 counterexample: invoking the PRD transform twice for parent
artifact 1 leaves two DDD_MODEL children with `parentId` 1 — the engine
checked for no existing child, so dispatch is not idempotent. -/
theorem dispatch_not_idempotent_counterexample :
    c6SecondStore.artifacts.countP
      (fun a => a.parentId == some 1 && a.type == "DDD_MODEL") = 2 := rfl

/-! ### C7 -/

/-- C7 counterexample: artifact 1 has a type matching no configured
stage, yet the DAG-level approval check `check_artifact_approvals` raises
nothing and returns True — it silently treats the approvals as
complete. -/
theorem missing_stage_counterexample :
    findStageForType unknownTypeStore "UNKNOWN_TYPE" = none ∧
    check_artifact_approvals unknownTypeStore 1 = some true :=
  ⟨rfl, rfl⟩

/-- C7 amended: the two approval-check paths disagree when the artifact's
type has no configured stage: `ApprovalOperator.execute` raises a fatal
error, while the DAG's `check_artifact_approvals` returns True and thereby
treats the approvals as complete. -/
theorem missing_stage_behavior (st : Store) (aid : Nat) (artifact : Artifact)
    (hget : get_artifact st aid = some artifact)
    (hstage : findStageForType st artifact.type = none) :
    ApprovalOperator.execute st aid =
      Except.error "No pipeline stage found for artifact type" ∧
    check_artifact_approvals st aid = some true := by
  constructor
  · unfold ApprovalOperator.execute
    rw [hget]
    dsimp only
    rw [hstage]
  · unfold check_artifact_approvals
    rw [hget]
    dsimp only
    rw [hstage]

/-- Witness for the C7 amended theorem at `unknownTypeStore`. -/
theorem missing_stage_behavior_witness :
    ApprovalOperator.execute unknownTypeStore 1 =
      Except.error "No pipeline stage found for artifact type" ∧
    check_artifact_approvals unknownTypeStore 1 = some true :=
  missing_stage_behavior unknownTypeStore 1
    ⟨1, "Mystery", "UNKNOWN_TYPE", "c", "airflow", none, "PENDING_APPROVAL"⟩ rfl rfl

/-! ### C8 -/

/-- Auxiliary: a per-row rewrite that keeps each row's selection
unchanged and never turns a counted row into an uncounted one cannot
decrease the count over the selected rows. -/
theorem countP_filter_map_ge (p q : Approval → Bool) (f : Approval → Approval)
    (l : List Approval)
    (hf : ∀ a ∈ l, q (f a) = q a ∧ (p a = true → p (f a) = true)) :
    (l.filter q).countP p ≤ ((l.map f).filter q).countP p := by
  induction l with
  | nil => simp
  | cons a t ih =>
    have ha := hf a (List.mem_cons_self a t)
    have iht := ih (fun b hb => hf b (List.mem_cons_of_mem a hb))
    by_cases hqa : q a = true
    · rw [List.map_cons, List.filter_cons, List.filter_cons, ha.1, hqa]
      rw [if_pos rfl, if_pos rfl, List.countP_cons, List.countP_cons]
      by_cases hpa : p a = true
      · rw [if_pos hpa, if_pos (ha.2 hpa)]
        omega
      · rw [if_neg hpa]
        by_cases hfa : p (f a) = true
        · rw [if_pos hfa]; omega
        · rw [if_neg hfa]; omega
    · rw [List.map_cons, List.filter_cons, List.filter_cons, ha.1]
      rw [if_neg hqa, if_neg hqa]
      exact iht

/-- C8 counterexample: with one APPROVED row and one required approval,
quorum is true; the stakeholder then records a REJECTED decision through
the decision path, which overwrites the APPROVED row, and re-evaluating
quorum yields false — an additional recorded decision reverted it. -/
theorem quorum_not_monotone_counterexample :
    quorum prdApprovedStore 1 1 = true ∧
    quorum (ManualApprovalOperator.execute prdApprovedStore 1 1 false none) 1 1 = false :=
  ⟨rfl, rfl⟩

/-- C8 amended: quorum is monotone under the decision discipline the spec
prescribes: an `update_approval` whose target rows are all currently
PENDING, or a newly created approval row, can never turn a true quorum
false.  (It is not monotone under the unguarded `update_approval` when a
previously APPROVED row is overwritten.) -/
theorem quorum_monotone_pending (st : Store) (aid req i : Nat)
    (u : ApprovalUpdate) (d : ApprovalData)
    (hpend : ∀ a ∈ st.approvals, a.id = i → a.status = "PENDING")
    (hq : quorum st aid req = true) :
    quorum (update_approval st i u) aid req = true ∧
    quorum (create_approval st d).2 aid req = true := by
  rw [quorum, decide_eq_true_eq] at hq
  unfold get_approvals_for_artifact at hq
  constructor
  · rw [quorum, decide_eq_true_eq]
    unfold update_approval get_approvals_for_artifact
    dsimp only
    have hge := countP_filter_map_ge (fun a => a.status == "APPROVED")
      (fun a => a.artifactId == aid)
      (fun a => if a.id = i then applyApprovalUpdate a u else a) st.approvals
      (by
        intro a ha
        dsimp only
        constructor
        · by_cases h : a.id = i
          · rw [if_pos h]
            rfl
          · rw [if_neg h]
        · intro hpa
          by_cases h : a.id = i
          · exfalso
            have hst := hpend a ha h
            rw [hst] at hpa
            exact absurd hpa (by decide)
          · rw [if_neg h]
            exact hpa)
    exact le_trans hq hge
  · rw [quorum, decide_eq_true_eq]
    unfold create_approval get_approvals_for_artifact
    dsimp only
    rw [List.filter_append, List.countP_append]
    exact le_trans hq (Nat.le_add_right _ _)

/-- Witness for the C8 amended theorem at `mixedStore`: rejecting the
still-PENDING row 2 and adding a new REJECTED row both leave the quorum
true. -/
theorem quorum_monotone_pending_witness :
    quorum (update_approval mixedStore 2 ⟨some "REJECTED", none⟩) 1 1 = true ∧
    quorum (create_approval mixedStore ⟨1, 3, "REJECTED"⟩).2 1 1 = true :=
  quorum_monotone_pending mixedStore 1 1 2 ⟨some "REJECTED", none⟩ ⟨1, 3, "REJECTED"⟩
    (by decide) rfl

/-! ### C9 -/

/-- C9: at the branch stage a single transform call produces both
payloads, and the engine creates exactly two sibling artifacts — the Zod
and DB schemas — with distinct ids and the same `parentId` (the TypeSpec
artifact's id), seeding each sibling's own two PENDING approvals
(stakeholders 2 and 4 on the Zod sibling, 3 and 5 on the DB sibling);
nothing else in the store changes. -/
theorem schema_branch_creates_two_siblings (tf : String → String × String)
    (st : Store) (aid : Nat) (tid : String) (ts : Artifact)
    (hget : get_artifact st aid = some ts) (hty : ts.type = "TYPESPEC") :
    SchemaGeneratorOperator.execute tf st aid tid =
      Except.ok ((st.nextArtifactId, st.nextArtifactId + 1),
        { artifacts := st.artifacts ++
            [⟨st.nextArtifactId, "Zod Schema for " ++ ts.name, "ZOD_SCHEMA",
                (tf ts.content).1, tid, some aid, "PENDING_APPROVAL"⟩,
             ⟨st.nextArtifactId + 1, "Database Schema for " ++ ts.name, "DB_SCHEMA",
                (tf ts.content).2, tid, some aid, "PENDING_APPROVAL"⟩],
          approvals := st.approvals ++
            [⟨st.nextApprovalId, st.nextArtifactId, 2, "PENDING", none⟩,
             ⟨st.nextApprovalId + 1, st.nextArtifactId, 4, "PENDING", none⟩,
             ⟨st.nextApprovalId + 2, st.nextArtifactId + 1, 3, "PENDING", none⟩,
             ⟨st.nextApprovalId + 3, st.nextArtifactId + 1, 5, "PENDING", none⟩],
          stages := st.stages,
          nextArtifactId := st.nextArtifactId + 2,
          nextApprovalId := st.nextApprovalId + 4 }) ∧
    st.nextArtifactId ≠ st.nextArtifactId + 1 := by
  have hid : ts.id = aid := get_artifact_id_eq st aid ts hget
  constructor
  · unfold SchemaGeneratorOperator.execute
    rw [hget]
    dsimp only
    rw [if_neg (fun h => h hty)]
    unfold create_artifact create_approval
    dsimp only
    rw [hid]
    simp [List.append_assoc]
  · omega

/-- Witness for C9 at `typespecStore`. -/
theorem schema_branch_creates_two_siblings_witness :
    SchemaGeneratorOperator.execute (fun c => (c, c)) typespecStore 7 "generate_schemas" =
      Except.ok ((10, 11),
        { artifacts := typespecStore.artifacts ++
            [⟨10, "Zod Schema for TS", "ZOD_SCHEMA", "tsc", "generate_schemas",
                some 7, "PENDING_APPROVAL"⟩,
             ⟨11, "Database Schema for TS", "DB_SCHEMA", "tsc", "generate_schemas",
                some 7, "PENDING_APPROVAL"⟩],
          approvals := typespecStore.approvals ++
            [⟨1, 10, 2, "PENDING", none⟩, ⟨2, 10, 4, "PENDING", none⟩,
             ⟨3, 11, 3, "PENDING", none⟩, ⟨4, 11, 5, "PENDING", none⟩],
          stages := typespecStore.stages,
          nextArtifactId := 12,
          nextApprovalId := 5 }) ∧
    (10 : Nat) ≠ 11 :=
  schema_branch_creates_two_siblings (fun c => (c, c)) typespecStore 7 "generate_schemas"
    ⟨7, "TS", "TYPESPEC", "tsc", "generate_typespec", some 5, "APPROVED"⟩ rfl rfl

/-! ### C3 -/

/-- C3: evaluation at the failing input `branchStore`: the Zod sibling
(artifact 10) has zero of its two required approvals while the DB sibling
(artifact 11) has both; both check tasks nevertheless end in task state
success — `ApprovalOperator` returns False instead of failing — so the
ALL_SUCCESS trigger rule is met and finalize fires, producing a
completion record, although sibling 10 never reached APPROVED. -/
theorem finalize_fires_without_both_approved :
    (schemaChecksThenFinalize branchStore 10 11).2 = some (10, 11, "completed") ∧
    (get_artifact (schemaChecksThenFinalize branchStore 10 11).1 10).map Artifact.status =
      some "PENDING_APPROVAL" :=
  ⟨rfl, rfl⟩
